import Mathlib

/-!
Verification of the Smart-Job-Portal React client core: the session manager
(AuthContext), the typed request pipeline (HttpClient), and the domain API
normalization layer (jobsApi / applicationsApi / handleApiError).

The embedding is shallow. JavaScript values that matter to the verified
properties are modelled explicitly:
  - localStorage (restricted to the four STORAGE_KEYS slots) is a record of
    optional values; storage.get returning null (absent key or unparseable
    raw item) is modelled as none.
  - A bearer token is its raw string together with the outcome of
    JSON.parse(atob(raw.split(".")[1])): some payload when the decode
    succeeds, none when that expression throws.
  - JavaScript truthiness on strings (the empty string is falsy) is modelled
    by explicit tests against the empty string, mirroring each if-site of
    the source.
  - fetch outcomes, thrown values and the ApiError class are explicit sum
    and record types; try/catch becomes a match on Except.
-/

namespace JobPortal

/-- Payload object of a JWT: the fields read by the client
(payload.sub, payload.role, payload.exp; exp in seconds since epoch). -/
structure Payload where
  sub : Int
  role : String
  exp : Int
deriving Repr, DecidableEq

/-- A bearer-token string as the client sees it: the raw string plus the
result of decoding its middle segment, some payload when
JSON.parse(atob(raw.split(".")[1])) succeeds and none when it throws. -/
structure Token where
  raw : String
  payload : Option Payload
deriving Repr, DecidableEq

/-- JavaScript truthiness of a token string: only the empty string is falsy. -/
def Token.truthy (t : Token) : Bool :=
  t.raw ≠ ""

/-- The four client-storage slots of STORAGE_KEYS (constants/index.ts):
job_portal_token, job_portal_user, job_portal_theme, job_portal_language.
A slot holds none when the key is absent or its raw item fails JSON.parse
(storage.get returns null in both cases, src/unnamed/part_000 lines 11-19). -/
structure Storage where
  token : Option Token
  user : Option String
  theme : Option String
  language : Option String
deriving Repr, DecidableEq

/-- JavaScript string disjunction a || b for strings: b when a is empty. -/
def jsOr (a b : String) : String :=
  if a = "" then b else a

namespace dateUtils

/-- dateUtils.isExpired (src/unnamed/part_000 lines 86-88):
Date.now() >= expirationTime * 1000, with nowMs the current epoch time in
milliseconds and expirationTime in seconds. -/
def isExpired (nowMs : Int) (expirationTime : Int) : Bool :=
  decide (expirationTime * 1000 ≤ nowMs)

end dateUtils

/-- In-memory auth user derived from a token payload
(AuthUser in the types module: id, role, exp). -/
structure AuthUser where
  id : Int
  role : String
  exp : Int
deriving Repr, DecidableEq

/-- State owned by the AuthProvider (src/unnamed/part_009): the storage it
reads and writes, the React user state, and the isLoading flag. -/
structure AuthState where
  storage : Storage
  user : Option AuthUser
  isLoading : Bool
deriving Repr, DecidableEq

/-- clearAuthData (src/unnamed/part_009 lines 74-78): removes the token and
user storage keys and clears the in-memory user. -/
def clearAuthData (s : AuthState) : AuthState :=
  { s with
    storage := { s.storage with token := none, user := none }
    user := none }

/-- initializeAuth (src/unnamed/part_009 lines 38-72): reads the stored
token; a missing or falsy (empty) token leaves everything but isLoading
untouched; a truthy token is decoded, a decode failure or an expired exp
clears the auth data, and otherwise the decoded identity becomes the user.
The function is total: every branch returns a state, mirroring the
try/catch structure of the source, which swallows all decode errors. -/
def initializeAuth (nowMs : Int) (s : AuthState) : AuthState :=
  match s.storage.token with
  | none => { s with isLoading := false }
  | some tok =>
    if tok.truthy = false then
      { s with isLoading := false }
    else
      match tok.payload with
      | none => { clearAuthData s with isLoading := false }
      | some payload =>
        if dateUtils.isExpired nowMs payload.exp then
          { clearAuthData s with isLoading := false }
        else
          { s with user := some ⟨payload.sub, payload.role, payload.exp⟩, isLoading := false }

/-- logout (src/unnamed/part_009 lines 140-143): clearAuthData. -/
def logout (s : AuthState) : AuthState :=
  clearAuthData s

/-- isAuthenticated (src/unnamed/part_009 line 31):
user is present and not expired. -/
def isAuthenticated (nowMs : Int) (s : AuthState) : Bool :=
  match s.user with
  | none => false
  | some u => !(dateUtils.isExpired nowMs u.exp)

/-- API_CONFIG.timeout (api.ts line 24): fixed request timeout in
milliseconds. -/
def API_CONFIG_timeout : Nat := 10000

/-- The ApiError class (api.ts lines 31-43): status, statusText, message,
optional raw error payload. The payload, when the error body parsed, is the
optional message field the client reads from it. -/
structure ApiErr where
  status : Int
  statusText : String
  message : String
  data : Option (Option String)
deriving Repr, DecidableEq

/-- A JavaScript value reaching a catch site: an ApiError instance, a plain
Error instance (carrying its message), or any non-Error thrown value. -/
inductive ErrVal where
  | apiError (e : ApiErr)
  | jsError (message : String)
  | otherVal
deriving Repr, DecidableEq

/-- handleApiError (api.ts lines 475-506), with its storage side effect made
explicit: returns the updated storage and the human-readable message. Only
the 401 arm touches storage (removing the token and user keys); every other
arm returns the storage unchanged. -/
def handleApiError (error : ErrVal) (st : Storage) : Storage × String :=
  match error with
  | .apiError e =>
    if e.status = 401 then
      ({ st with token := none, user := none }, "Your session has expired. Please log in again.")
    else if e.status = 403 then
      (st, "You do not have permission to perform this action.")
    else if e.status = 404 then
      (st, "The requested resource was not found.")
    else if e.status = 409 then
      (st, jsOr e.message "A conflict occurred. This item may already exist.")
    else if e.status = 422 then
      (st, jsOr e.message "Please check your input and try again.")
    else if e.status = 429 then
      (st, "Too many requests. Please try again later.")
    else if e.status = 500 then
      (st, "A server error occurred. Please try again later.")
    else
      (st, jsOr e.message "An unexpected error occurred.")
  | .jsError message => (st, message)
  | .otherVal => (st, "An unexpected error occurred. Please try again.")

/-- An HTTP response as handleResponse inspects it: ok flag, numeric status,
status text, the error-body parse outcome (none when response.json()
rejects, otherwise the optional message field of the parsed object), and
the success-path body. -/
structure HttpResponse where
  ok : Bool
  status : Int
  statusText : String
  errorBody : Option (Option String)
  body : String
deriving Repr, DecidableEq

/-- The message chosen for an error response (api.ts line 67):
errorData.message || response.statusText, where errorData is the parsed
JSON body or the empty object when parsing failed. -/
def errorResponseMessage (errorBody : Option (Option String)) (statusText : String) : String :=
  match errorBody with
  | none => statusText
  | some none => statusText
  | some (some m) => jsOr m statusText

/-- handleResponse (api.ts lines 64-76): a non-ok response raises an
ApiError built from the status, status text and parsed error body; an ok
response yields its body (JSON-parsed or raw text, both carried here as the
abstract body value). -/
def handleResponse (r : HttpResponse) : Except ApiErr String :=
  if r.ok = false then
    .error ⟨r.status, r.statusText, errorResponseMessage r.errorBody r.statusText, r.errorBody⟩
  else
    .ok r.body

/-- Outcome of the awaited fetch inside HttpClient.request: a response, a
rejection with an AbortError (the timeout fired), a rejection with another
Error instance, or a thrown non-Error value. -/
inductive FetchOutcome where
  | response (r : HttpResponse)
  | abortError
  | networkError (message : String)
  | thrownValue
deriving Repr, DecidableEq

/-- HttpClient.request (api.ts lines 78-122), error classification: the
try/catch around fetch and handleResponse. An ApiError is re-raised as is;
an AbortError becomes status 408, any other Error becomes status 0 with its
message, and a non-Error thrown value becomes status 0 with a fixed
message. Every branch produces either a success value or an ApiErr. -/
def request (outcome : FetchOutcome) : Except ApiErr String :=
  match outcome with
  | .response r => handleResponse r
  | .abortError => .error ⟨408, "Request Timeout", "Request timed out", none⟩
  | .networkError message => .error ⟨0, "Network Error", message, none⟩
  | .thrownValue => .error ⟨0, "Unknown Error", "An unknown error occurred", none⟩

/-- getAuthHeaders (api.ts lines 53-62): the Authorization entry, present
exactly when the stored token is truthy (non-empty). -/
def getAuthHeaders (st : Storage) : List (String × String) :=
  match st.token with
  | none => []
  | some tok =>
    if tok.truthy then [("Authorization", "Bearer " ++ tok.raw)] else []

/-- Lookup in a spread-merged header list: the last occurrence wins, as in
a JavaScript object built by spreading left to right. -/
def headerGet (hs : List (String × String)) (k : String) : Option String :=
  ((hs.filter (fun p => p.1 = k)).getLast?).map (fun p => p.2)

/-- Header assembly of HttpClient.request (api.ts lines 80-95): the default
Content-Type, then the auth headers, then the per-call option headers; when
the body is FormData the Content-Type entry is deleted so the environment
can set the multipart boundary. -/
def buildHeaders (st : Storage) (optionHeaders : List (String × String)) (bodyIsFormData : Bool) : List (String × String) :=
  let merged := ("Content-Type", "application/json") :: (getAuthHeaders st ++ optionHeaders)
  if bodyIsFormData then merged.filter (fun p => p.1 ≠ "Content-Type") else merged

/-- A JavaScript value appearing in a query-parameter record. -/
inductive ParamVal where
  | undef
  | null
  | str (s : String)
  | num (n : Int)
  | boolV (b : Bool)
deriving Repr, DecidableEq

/-- String(value) on a parameter value (only reached for non-null,
non-undefined values in HttpClient.get, but total here). -/
def jsString : ParamVal → String
  | .undef => "undefined"
  | .null => "null"
  | .str s => s
  | .num n => toString n
  | .boolV b => if b then "true" else "false"

/-- Parameter filtering of HttpClient.get (api.ts lines 127-132): entries
whose value is undefined or null are dropped; every other entry is kept,
stringified. -/
def toStringParams (params : List (String × ParamVal)) : List (String × String) :=
  params.filterMap (fun kv =>
    match kv.2 with
    | .undef => none
    | .null => none
    | v => some (kv.1, jsString v))

/-- Serialization of the kept parameters (URLSearchParams toString,
percent-encoding abstracted away since no verified property depends on
it). -/
def serializeQuery (ps : List (String × String)) : String :=
  String.intercalate "&" (ps.map (fun p => p.1 ++ "=" ++ p.2))

/-- URL built by HttpClient.get (api.ts lines 124-137): the endpoint alone
when no params record is passed, otherwise the endpoint with the filtered,
stringified query appended. -/
def httpClientGetUrl (endpoint : String) (params : Option (List (String × ParamVal))) : String :=
  match params with
  | none => endpoint
  | some ps => endpoint ++ "?" ++ serializeQuery (toStringParams ps)

/-- Result shape returned by the AuthProvider operations:
success flag and optional message. -/
structure OpResult where
  success : Bool
  message : Option String
deriving Repr, DecidableEq

/-- Response of authApi.login as the login handler reads it: the
accessToken field (absent, or a token string) and the optional user
object (kept opaque, only cached to storage). -/
structure AuthResponseModel where
  accessToken : Option Token
  userObj : Option String
deriving Repr, DecidableEq

/-- login (src/unnamed/part_009 lines 80-120). The awaited authApi.login
call either throws (handled by the catch arm through handleApiError) or
returns a response. A falsy accessToken yields a failure result; otherwise
the token is persisted first, then decoded: on decode failure the function
returns a failure result without rolling back the storage write; on success
the decoded identity becomes the user and the response user object, when
present, is cached. The finally arm sets isLoading to false on every
path. -/
def login (outcome : Except ErrVal AuthResponseModel) (s : AuthState) : AuthState × OpResult :=
  match outcome with
  | .error e =>
    let r := handleApiError e s.storage
    ({ s with storage := r.1, isLoading := false }, ⟨false, some r.2⟩)
  | .ok resp =>
    match resp.accessToken with
    | none => ({ s with isLoading := false }, ⟨false, some "No access token received"⟩)
    | some tok =>
      if tok.truthy = false then
        ({ s with isLoading := false }, ⟨false, some "No access token received"⟩)
      else
        let s1 := { s with storage := { s.storage with token := some tok } }
        match tok.payload with
        | none => ({ s1 with isLoading := false }, ⟨false, some "Invalid token received"⟩)
        | some p =>
          let s2 := { s1 with user := some ⟨p.sub, p.role, p.exp⟩ }
          let s3 :=
            match resp.userObj with
            | some u => { s2 with storage := { s2.storage with user := some u } }
            | none => s2
          ({ s3 with isLoading := false }, ⟨true, some "Login successful!"⟩)

/-- Job location object (types module): city, street, alley. -/
structure JobLocation where
  city : String
  street : String
  alley : String
deriving Repr, DecidableEq

/-- A raw job object as the backend may deliver it to transformJob (the
source types it as any). The owning-user id may arrive under the backend
field name userId or under the canonical name employerId; optional fields
are none when the backend omits them. -/
structure RawJob where
  id : Int
  title : String
  description : String
  salary : Option Int
  status : String
  jobLocation : Option JobLocation
  location : Option JobLocation
  userId : Option Int
  employerId : Option Int
  employerName : Option String
  createdAt : Option String
  updatedAt : Option String
deriving Repr, DecidableEq

/-- Normalized Job exposed to callers (types module), with optional fields
as explicit Option values: jobLocation none is the null marker, employerId
none is the undefined produced when the raw field read by transformJob is
absent. -/
structure Job where
  id : Int
  title : String
  description : String
  salary : Option Int
  status : String
  jobLocation : Option JobLocation
  employerId : Option Int
  employerName : String
  createdAt : String
  updatedAt : String
deriving Repr, DecidableEq

/-- JavaScript disjunction a || b over optional object values: objects are
always truthy, so the first present value wins. -/
def jsOrOpt {α : Type} (a b : Option α) : Option α :=
  match a with
  | some x => some x
  | none => b

/-- JavaScript disjunction value || fallback where value is an optional
string and an empty string is falsy. -/
def jsOrStr (a : Option String) (b : String) : String :=
  match a with
  | some s => jsOr s b
  | none => b

/-- transformJob (api.ts lines 229-243): jobLocation is
rawJob.jobLocation || rawJob.location || null; employerId is read from
rawJob.userId only; employerName, createdAt and updatedAt fall back to
fixed defaults (nowIso stands for new Date().toISOString()). -/
def transformJob (nowIso : String) (rawJob : RawJob) : Job :=
  { id := rawJob.id
    title := rawJob.title
    description := rawJob.description
    salary := rawJob.salary
    status := rawJob.status
    jobLocation := jsOrOpt rawJob.jobLocation rawJob.location
    employerId := rawJob.userId
    employerName := jsOrStr rawJob.employerName "Unknown Employer"
    createdAt := jsOrStr rawJob.createdAt nowIso
    updatedAt := jsOrStr rawJob.updatedAt nowIso }

/-- An application record (types module), reduced to the fields a caller
could distinguish; the list payload shape is what the verified properties
are about. -/
structure Application where
  id : Int
  description : String
  status : String
deriving Repr, DecidableEq

/-- A wrapped object answer of the applications list endpoint: its optional
data field (none when the backend omitted it). Other fields of the wrapper
are irrelevant to the returned value. -/
structure WrappedApplications where
  data : Option (List Application)
deriving Repr, DecidableEq

/-- Parsed response of GET /applications: either a bare array or a wrapped
object. -/
inductive ApplicationsGetAllResponse where
  | arr (xs : List Application)
  | obj (w : WrappedApplications)
deriving Repr, DecidableEq

/-- What applicationsApi.getAll hands its caller: a bare array, or (on the
response.data-falsy path) the wrapped object itself. -/
inductive ApplicationsGetAllResult where
  | arr (xs : List Application)
  | obj (w : WrappedApplications)
deriving Repr, DecidableEq

namespace applicationsApi

/-- applicationsApi.getAll (api.ts lines 374-381): an array response is
returned as is; otherwise response.data || response || [] — the data array
when present (arrays are truthy even when empty), else the response object
itself (objects are truthy). -/
def getAll (response : ApplicationsGetAllResponse) : ApplicationsGetAllResult :=
  match response with
  | .arr xs => .arr xs
  | .obj w =>
    match w.data with
    | some xs => .arr xs
    | none => .obj w

end applicationsApi

/-- One part of a multipart FormData body. -/
inductive BodyPart where
  | field (name value : String)
  | filePart (name file : String)
deriving Repr, DecidableEq

/-- Argument record of applicationsApi.create
(CreateApplicationData in the types module). -/
structure CreateApplicationData where
  description : String
  resume : Option String
deriving Repr, DecidableEq

/-- FormData built by applicationsApi.create (api.ts lines 420-425): the
description field always, the resume file part exactly when a file was
supplied (a File object is always truthy). -/
def createApplicationFormData (data : CreateApplicationData) : List BodyPart :=
  BodyPart.field "description" data.description ::
    (match data.resume with
     | some f => [BodyPart.filePart "resume" f]
     | none => [])

/-- useApplicationMutations.createApplication (src/unnamed/part_008 lines
244-269) composed with the pipeline: the posted multipart body, and the
caller-facing result. A pipeline success yields the fixed success message;
a pipeline failure is classified by handleApiError (the caught value is the
ApiError raised by request), whose storage effect is threaded through. -/
def createApplication (data : CreateApplicationData) (outcome : FetchOutcome) (st : Storage) : (List BodyPart) × Storage × OpResult :=
  let body := createApplicationFormData data
  match request outcome with
  | .ok _ => (body, st, ⟨true, some "Application submitted successfully!"⟩)
  | .error e =>
    let r := handleApiError (ErrVal.apiError e) st
    (body, r.1, ⟨false, some r.2⟩)

/-- C1 counterexample. The claim states that a stored token whose payload
fails to decode makes initialize() erase the stored token. For the stored
empty-string token (whose payload-segment decode would throw, so it has no
decodable payload), initializeAuth yields an anonymous session but leaves
the stored token in place: the falsiness guard treats it as no token and
returns before any erase. -/
theorem initializeAuth_c1_counterexample :
    (initializeAuth 0 ⟨⟨some ⟨"", none⟩, some "cached", none, none⟩, none, true⟩).user = none
  ∧ (initializeAuth 0 ⟨⟨some ⟨"", none⟩, some "cached", none, none⟩, none, true⟩).storage.token
      = some ⟨"", none⟩ := by
  constructor <;> rfl

/-- C1 (amended). Case characterization of initializeAuth over every stored
token value: a missing token leaves the state (apart from isLoading)
untouched; a stored empty-string token is likewise treated as no token, so
the state is anonymous only if it already was and storage is not erased; a
non-empty token with a decoded payload and a future expiry yields the
authenticated session whose id and role match the payload exactly; a
non-empty token with a past expiry, or one whose payload fails to decode,
clears the token and user storage keys and the in-memory user. The function
is total, so initialize never throws for any stored-token value. -/
theorem initializeAuth_c1_characterization (nowMs : Int) (s : AuthState) :
    (s.storage.token = none → initializeAuth nowMs s = { s with isLoading := false })
  ∧ (∀ tok, s.storage.token = some tok → tok.raw = "" →
      initializeAuth nowMs s = { s with isLoading := false })
  ∧ (∀ tok p, s.storage.token = some tok → tok.raw ≠ "" → tok.payload = some p →
      dateUtils.isExpired nowMs p.exp = false →
      initializeAuth nowMs s =
        { s with user := some ⟨p.sub, p.role, p.exp⟩, isLoading := false })
  ∧ (∀ tok p, s.storage.token = some tok → tok.raw ≠ "" → tok.payload = some p →
      dateUtils.isExpired nowMs p.exp = true →
      initializeAuth nowMs s = { clearAuthData s with isLoading := false })
  ∧ (∀ tok, s.storage.token = some tok → tok.raw ≠ "" → tok.payload = none →
      initializeAuth nowMs s = { clearAuthData s with isLoading := false }) := by
  refine ⟨?_, ?_, ?_, ?_, ?_⟩
  · intro h
    simp [initializeAuth, h]
  · intro tok h hraw
    simp [initializeAuth, h, Token.truthy, hraw]
  · intro tok p h hraw hp hexp
    simp [initializeAuth, h, Token.truthy, hraw, hp, hexp]
  · intro tok p h hraw hp hexp
    simp [initializeAuth, h, Token.truthy, hraw, hp, hexp]
  · intro tok h hraw hp
    simp [initializeAuth, h, Token.truthy, hraw, hp]

/-- C1 witness: the characterization applied to a concrete valid token. -/
theorem initializeAuth_c1_witness :
    initializeAuth 500 ⟨⟨some ⟨"h.p.s", some ⟨7, "SEEKER", 1000⟩⟩, none, none, none⟩, none, true⟩ =
      { (⟨⟨some ⟨"h.p.s", some ⟨7, "SEEKER", 1000⟩⟩, none, none, none⟩, none, true⟩ : AuthState) with
          user := some ⟨7, "SEEKER", 1000⟩, isLoading := false } :=
  (initializeAuth_c1_characterization 500
      ⟨⟨some ⟨"h.p.s", some ⟨7, "SEEKER", 1000⟩⟩, none, none, none⟩, none, true⟩).2.2.1
    ⟨"h.p.s", some ⟨7, "SEEKER", 1000⟩⟩ ⟨7, "SEEKER", 1000⟩ rfl (by decide) rfl (by decide)

/-- C5: logout is idempotent on the whole state (storage and in-memory
session alike), and logout followed by initialize yields an anonymous,
unauthenticated session from every prior state. -/
theorem logout_c5 (nowMs nowMs2 : Int) (s : AuthState) :
    logout (logout s) = logout s
  ∧ (initializeAuth nowMs (logout s)).user = none
  ∧ (initializeAuth nowMs (logout s)).storage.token = none
  ∧ isAuthenticated nowMs2 (initializeAuth nowMs (logout s)) = false := by
  refine ⟨?_, ?_, ?_, ?_⟩ <;>
    simp [logout, clearAuthData, initializeAuth, isAuthenticated]

/-- C9: when authApi.login returns a non-empty access token whose payload
fails to decode, login persists the token, returns the failure result with
message "Invalid token received" without rolling the storage write back,
and a subsequent initialize erases the persisted token and yields an
anonymous session. -/
theorem login_c9 (s : AuthState) (tok : Token) (uo : Option String) (nowMs : Int)
    (hraw : tok.raw ≠ "") (hp : tok.payload = none) :
    (login (.ok ⟨some tok, uo⟩) s).2 = ⟨false, some "Invalid token received"⟩
  ∧ (login (.ok ⟨some tok, uo⟩) s).1.storage.token = some tok
  ∧ (initializeAuth nowMs (login (.ok ⟨some tok, uo⟩) s).1).storage.token = none
  ∧ (initializeAuth nowMs (login (.ok ⟨some tok, uo⟩) s).1).user = none := by
  refine ⟨?_, ?_, ?_, ?_⟩ <;>
    simp [login, Token.truthy, hraw, hp, initializeAuth, clearAuthData]

/-- C9 witness: the theorem applied to a concrete undecodable token. -/
theorem login_c9_witness :
    (login (.ok ⟨some ⟨"garbage", none⟩, none⟩)
        ⟨⟨none, none, none, none⟩, none, true⟩).2 = ⟨false, some "Invalid token received"⟩
  ∧ (login (.ok ⟨some ⟨"garbage", none⟩, none⟩)
        ⟨⟨none, none, none, none⟩, none, true⟩).1.storage.token = some ⟨"garbage", none⟩
  ∧ (initializeAuth 0 (login (.ok ⟨some ⟨"garbage", none⟩, none⟩)
        ⟨⟨none, none, none, none⟩, none, true⟩).1).storage.token = none
  ∧ (initializeAuth 0 (login (.ok ⟨some ⟨"garbage", none⟩, none⟩)
        ⟨⟨none, none, none, none⟩, none, true⟩).1).user = none :=
  login_c9 ⟨⟨none, none, none, none⟩, none, true⟩ ⟨"garbage", none⟩ none 0 (by decide) rfl

/-- C10 counterexample. The claim states handleApiError always returns a
non-empty message. A plain Error whose own message is empty is returned
verbatim: the result message is the empty string. -/
theorem handleApiError_c10_counterexample :
    (handleApiError (ErrVal.jsError "") ⟨none, none, none, none⟩).2 = "" := rfl

/-- C10 (amended). handleApiError is total; its message is empty exactly
when the input is a plain Error with an empty message (every other input,
classified or not, yields a non-empty message); its only storage effect is
the 401 arm, which removes the token and user keys; every other input
leaves the storage record unchanged. -/
theorem handleApiError_c10_characterization (e : ErrVal) (st : Storage) :
    ((handleApiError e st).2 = "" ↔ e = ErrVal.jsError "")
  ∧ (∀ a, e = ErrVal.apiError a → a.status ≠ 401 → (handleApiError e st).1 = st)
  ∧ (∀ m, e = ErrVal.jsError m → (handleApiError e st).1 = st)
  ∧ (e = ErrVal.otherVal → (handleApiError e st).1 = st)
  ∧ (∀ a, e = ErrVal.apiError a → a.status = 401 →
      (handleApiError e st).1 = { st with token := none, user := none }) := by
  refine ⟨?_, ?_, ?_, ?_, ?_⟩
  · cases e with
    | apiError a =>
      simp only [handleApiError]
      split_ifs <;> simp [jsOr] <;> split_ifs <;> simp_all
    | jsError m => simp [handleApiError]
    | otherVal => simp [handleApiError]
  · intro a ha hstatus
    subst ha
    simp only [handleApiError, hstatus, if_false]
    split_ifs <;> rfl
  · intro m hm
    subst hm
    rfl
  · intro h
    subst h
    rfl
  · intro a ha h401
    subst ha
    simp [handleApiError, h401]

/-- C10 witness: a 500 error leaves storage unchanged. -/
theorem handleApiError_c10_witness :
    (handleApiError (ErrVal.apiError ⟨500, "Internal Server Error", "boom", none⟩)
        ⟨none, some "u", some "dark", none⟩).1 = ⟨none, some "u", some "dark", none⟩ :=
  (handleApiError_c10_characterization
      (ErrVal.apiError ⟨500, "Internal Server Error", "boom", none⟩)
      ⟨none, some "u", some "dark", none⟩).2.1
    ⟨500, "Internal Server Error", "boom", none⟩ rfl (by decide)

/-- C3: the pipeline classifies every terminal failure as a single ApiErr
value: the timeout (fired after the fixed 10000 ms) maps to status 408 with
the fixed timeout message; a transport failure with no response maps to
status 0 carrying the transport message; a thrown non-Error value maps to
status 0 with a fixed message; a non-ok response maps to an error carrying
its status, status text, the message chosen from the parsed JSON error body
with status-text fallback, and the raw body; an unparseable body yields the
status text and a non-empty parsed message is used as is; and a success
value arises only from an ok response, so no raw transport exception
crosses the pipeline boundary. -/
theorem request_c3_classification (outcome : FetchOutcome) :
    API_CONFIG_timeout = 10000
  ∧ (outcome = .abortError →
      request outcome = .error ⟨408, "Request Timeout", "Request timed out", none⟩)
  ∧ (∀ m, outcome = .networkError m →
      request outcome = .error ⟨0, "Network Error", m, none⟩)
  ∧ (outcome = .thrownValue →
      request outcome = .error ⟨0, "Unknown Error", "An unknown error occurred", none⟩)
  ∧ (∀ r, outcome = .response r → r.ok = false →
      request outcome =
        .error ⟨r.status, r.statusText, errorResponseMessage r.errorBody r.statusText, r.errorBody⟩)
  ∧ (∀ stx, errorResponseMessage none stx = stx)
  ∧ (∀ m stx, m ≠ "" → errorResponseMessage (some (some m)) stx = m)
  ∧ (∀ v, request outcome = .ok v → ∃ r, outcome = .response r ∧ r.ok = true ∧ v = r.body) := by
  refine ⟨rfl, ?_, ?_, ?_, ?_, ?_, ?_, ?_⟩
  · intro h; subst h; rfl
  · intro m h; subst h; rfl
  · intro h; subst h; rfl
  · intro r h hok
    subst h
    simp [request, handleResponse, hok]
  · intro stx; rfl
  · intro m stx hm
    simp [errorResponseMessage, jsOr, hm]
  · intro v hv
    cases outcome with
    | response r =>
      refine ⟨r, rfl, ?_, ?_⟩ <;>
      · simp only [request, handleResponse] at hv
        split at hv <;> simp_all
    | abortError => simp [request] at hv
    | networkError m => simp [request] at hv
    | thrownValue => simp [request] at hv

/-- C3 witness: the theorem applied to a timeout and to a concrete 404
response with an unparseable body. -/
theorem request_c3_witness :
    request FetchOutcome.abortError =
      .error ⟨408, "Request Timeout", "Request timed out", none⟩
  ∧ request (FetchOutcome.response ⟨false, 404, "Not Found", none, ""⟩) =
      .error ⟨404, "Not Found", "Not Found", none⟩ :=
  ⟨(request_c3_classification FetchOutcome.abortError).2.1 rfl,
   (request_c3_classification (FetchOutcome.response ⟨false, 404, "Not Found", none, ""⟩)).2.2.2.2.1
     ⟨false, 404, "Not Found", none, ""⟩ rfl rfl⟩

/-- C4 counterexample. The claim states that whenever a token is present in
storage the request carries the Authorization header. With the empty-string
token present in storage, the header is omitted: the truthiness guard in
getAuthHeaders skips it. -/
theorem buildHeaders_c4_counterexample :
    (⟨some ⟨"", none⟩, none, none, none⟩ : Storage).token = some ⟨"", none⟩
  ∧ headerGet (buildHeaders ⟨some ⟨"", none⟩, none, none, none⟩ [] false) "Authorization" = none := by
  constructor <;> rfl

/-- C4 (amended). For every request whose per-call options do not set an
Authorization entry themselves: a non-empty stored token puts
Authorization: Bearer token into the assembled headers; a missing or
empty stored token omits the entry entirely; and conversely any
Authorization value in the assembled headers is Bearer followed by the
non-empty stored token, so the pipeline never fabricates a Bearer null or
Bearer undefined header. -/
theorem buildHeaders_c4_characterization (st : Storage) (optionHeaders : List (String × String))
    (isFD : Bool) (hopt : headerGet optionHeaders "Authorization" = none) :
    (∀ tok, st.token = some tok → tok.raw ≠ "" →
      headerGet (buildHeaders st optionHeaders isFD) "Authorization" = some ("Bearer " ++ tok.raw))
  ∧ (st.token = none →
      headerGet (buildHeaders st optionHeaders isFD) "Authorization" = none)
  ∧ (∀ tok, st.token = some tok → tok.raw = "" →
      headerGet (buildHeaders st optionHeaders isFD) "Authorization" = none)
  ∧ (∀ v, headerGet (buildHeaders st optionHeaders isFD) "Authorization" = some v →
      ∃ tok, st.token = some tok ∧ tok.raw ≠ "" ∧ v = "Bearer " ++ tok.raw) := by
  have hfilter : optionHeaders.filter (fun p => p.1 = "Authorization") = [] := by
    have h := hopt
    simp only [headerGet, Option.map_eq_none'] at h
    exact List.getLast?_eq_none_iff.mp h
  have hmem : ∀ p ∈ optionHeaders, ¬(p.1 = "Authorization") := by
    intro p hp
    have h := List.filter_eq_nil_iff.mp hfilter p hp
    simpa using h
  have hfilter2 :
      optionHeaders.filter
        (fun a => decide (a.1 = "Authorization") && !decide (a.1 = "Content-Type")) = [] := by
    refine List.filter_eq_nil_iff.mpr ?_
    intro p hp
    simp [hmem p hp]
  refine ⟨?_, ?_, ?_, ?_⟩
  · intro tok htok hraw
    cases isFD <;>
      simp [buildHeaders, getAuthHeaders, headerGet, htok, Token.truthy, hraw,
        List.filter_append, hfilter, hfilter2]
  · intro htok
    cases isFD <;>
      simp [buildHeaders, getAuthHeaders, headerGet, htok, List.filter_append, hfilter,
        hfilter2]
  · intro tok htok hraw
    cases isFD <;>
      simp [buildHeaders, getAuthHeaders, headerGet, htok, Token.truthy, hraw,
        List.filter_append, hfilter, hfilter2]
  · intro v hv
    match htok : st.token with
    | none =>
      rw [(by
        cases isFD <;>
          simp [buildHeaders, getAuthHeaders, headerGet, htok, List.filter_append, hfilter,
            hfilter2] :
        headerGet (buildHeaders st optionHeaders isFD) "Authorization" = none)] at hv
      exact absurd hv (by simp)
    | some tok =>
      by_cases hraw : tok.raw = ""
      · rw [(by
          cases isFD <;>
            simp [buildHeaders, getAuthHeaders, headerGet, htok, Token.truthy, hraw,
              List.filter_append, hfilter, hfilter2] :
          headerGet (buildHeaders st optionHeaders isFD) "Authorization" = none)] at hv
        exact absurd hv (by simp)
      · refine ⟨tok, rfl, hraw, ?_⟩
        rw [(by
          cases isFD <;>
            simp [buildHeaders, getAuthHeaders, headerGet, htok, Token.truthy, hraw,
              List.filter_append, hfilter, hfilter2] :
          headerGet (buildHeaders st optionHeaders isFD) "Authorization" =
            some ("Bearer " ++ tok.raw))] at hv
        exact (Option.some_inj.mp hv).symm

/-- C4 witness: a concrete non-empty stored token yields the Bearer
header. -/
theorem buildHeaders_c4_witness :
    headerGet (buildHeaders ⟨some ⟨"tok123", none⟩, none, none, none⟩
        [("Content-Type", "application/x-www-form-urlencoded")] false) "Authorization" =
      some ("Bearer " ++ "tok123") :=
  (buildHeaders_c4_characterization ⟨some ⟨"tok123", none⟩, none, none, none⟩
      [("Content-Type", "application/x-www-form-urlencoded")] false (by rfl)).1
    ⟨"tok123", none⟩ rfl (by decide)

/-- C6 counterexample. The claim states that empty-string parameter values
are omitted from the query string. The get wrapper keeps them: only
undefined and null are filtered, so an empty-string value appears as an
empty entry in the merged query string. -/
theorem toStringParams_c6_counterexample :
    toStringParams [("q", ParamVal.str "")] = [("q", "")]
  ∧ httpClientGetUrl "/jobs" (some [("q", ParamVal.str "")]) = "/jobs?q=" := by
  constructor <;> rfl

/-- C6 (amended). The query entries kept by the get wrapper are exactly the
stringifications of the parameter entries whose value is neither undefined
nor null; in particular empty-string values are kept, not omitted. -/
theorem toStringParams_c6_characterization (params : List (String × ParamVal)) (k v : String) :
    (k, v) ∈ toStringParams params ↔
      ∃ pv, (k, pv) ∈ params ∧ pv ≠ ParamVal.undef ∧ pv ≠ ParamVal.null ∧ v = jsString pv := by
  constructor
  · intro h
    rcases List.mem_filterMap.mp h with ⟨⟨a, pv⟩, hmem, hf⟩
    refine ⟨pv, ?_, ?_, ?_, ?_⟩ <;> cases pv <;> simp_all [toStringParams, jsString]
  · rintro ⟨pv, hmem, hu, hn, hv⟩
    subst hv
    refine List.mem_filterMap.mpr ⟨(k, pv), hmem, ?_⟩
    cases pv <;> simp_all

/-- C6 witness: a kept entry next to a dropped null entry. -/
theorem toStringParams_c6_witness :
    ("a", "x") ∈ toStringParams [("a", ParamVal.str "x"), ("b", ParamVal.null)] :=
  (toStringParams_c6_characterization [("a", ParamVal.str "x"), ("b", ParamVal.null)] "a" "x").mpr
    ⟨ParamVal.str "x", by simp, by simp, by simp, rfl⟩

/-- C7 counterexample. The claim states the normalized job exposes the
owning-user id under employerId regardless of which of the two backend
field names carried it. transformJob reads only the userId field: a raw job
carrying the id under the employerId field alone normalizes to an absent
employerId. -/
theorem transformJob_c7_counterexample :
    (transformJob "2024-01-01T00:00:00.000Z"
        ⟨1, "T", "D", none, "ACTIVE", none, none, none, some 7, none, none, none⟩).employerId = none
  ∧ (⟨1, "T", "D", none, "ACTIVE", none, none, none, some 7, none, none, none⟩ : RawJob).employerId
      = some 7 := by
  constructor <;> rfl

/-- C7 (amended). The normalized employerId is always the raw userId field
(the only backend field name transformJob reads); when the backend omits
both jobLocation and location the normalized location is the explicit
absent marker none; and a present normalized location is always one of the
two backend-provided objects, never a synthesized object of empty
strings. -/
theorem transformJob_c7_characterization (nowIso : String) (rawJob : RawJob) :
    (transformJob nowIso rawJob).employerId = rawJob.userId
  ∧ (rawJob.jobLocation = none → rawJob.location = none →
      (transformJob nowIso rawJob).jobLocation = none)
  ∧ (∀ loc, (transformJob nowIso rawJob).jobLocation = some loc →
      rawJob.jobLocation = some loc ∨ rawJob.location = some loc) := by
  refine ⟨rfl, ?_, ?_⟩
  · intro h1 h2
    simp [transformJob, jsOrOpt, h1, h2]
  · intro loc h
    simp only [transformJob, jsOrOpt] at h
    cases hjl : rawJob.jobLocation <;> simp_all

/-- C7 witness: both location fields absent normalizes to none. -/
theorem transformJob_c7_witness :
    (transformJob "2024-01-01T00:00:00.000Z"
        ⟨1, "T", "D", none, "ACTIVE", none, none, some 3, none, none, none, none⟩).jobLocation
      = none :=
  (transformJob_c7_characterization "2024-01-01T00:00:00.000Z"
      ⟨1, "T", "D", none, "ACTIVE", none, none, some 3, none, none, none, none⟩).2.1 rfl rfl

/-- C8: applicationsApi.getAll returns a bare array for both backend
shapes: a bare array response is returned as is, and a wrapped object whose
data field holds the array yields exactly that array. -/
theorem applicationsApi_getAll_c8 (response : ApplicationsGetAllResponse) :
    (∀ xs, response = .arr xs → applicationsApi.getAll response = .arr xs)
  ∧ (∀ w xs, response = .obj w → w.data = some xs →
      applicationsApi.getAll response = .arr xs) := by
  constructor
  · intro xs h
    subst h
    rfl
  · intro w xs h hd
    subst h
    simp [applicationsApi.getAll, hd]

/-- C8 witness: a wrapped response unwraps to the bare array. -/
theorem applicationsApi_getAll_c8_witness :
    applicationsApi.getAll (.obj ⟨some [⟨1, "cover", "PENDING"⟩]⟩) = .arr [⟨1, "cover", "PENDING"⟩] :=
  (applicationsApi_getAll_c8 (.obj ⟨some [⟨1, "cover", "PENDING"⟩]⟩)).2
    ⟨some [⟨1, "cover", "PENDING"⟩]⟩ [⟨1, "cover", "PENDING"⟩] rfl rfl

/-- C2 counterexample. The claim states a 409 response yields the exact
caller-facing message "You have already applied to this job." For a 409
whose error body carries the message "dup", the caller-facing result
message is "dup": handleApiError returns the error message itself, not the
fixed string. -/
theorem createApplication_c2_counterexample :
    (createApplication ⟨"cover letter", none⟩
        (FetchOutcome.response ⟨false, 409, "Conflict", some (some "dup"), ""⟩)
        ⟨none, none, none, none⟩).2.2 = ⟨false, some "dup"⟩
  ∧ ("dup" : String) ≠ "You have already applied to this job." := by
  constructor
  · rfl
  · decide

/-- C2 (amended). The create-application request body always contains the
multipart description field and contains the resume file part exactly when
a file argument was supplied; and a 409 response produces a failure result
whose message is the classified error message (the parsed body message, or
the status text), falling back to the fixed conflict message when that is
empty — not the hardcoded already-applied string. -/
theorem createApplication_c2_characterization (data : CreateApplicationData)
    (outcome : FetchOutcome) (st : Storage) :
    BodyPart.field "description" data.description ∈ (createApplication data outcome st).1
  ∧ (∀ f, data.resume = some f ↔
      BodyPart.filePart "resume" f ∈ (createApplication data outcome st).1)
  ∧ (∀ r, outcome = .response r → r.ok = false → r.status = 409 →
      (createApplication data outcome st).2.2 =
        ⟨false, some (jsOr (errorResponseMessage r.errorBody r.statusText)
          "A conflict occurred. This item may already exist.")⟩) := by
  have hbody : (createApplication data outcome st).1 = createApplicationFormData data := by
    simp only [createApplication]
    cases h : request outcome <;> simp [h]
  refine ⟨?_, ?_, ?_⟩
  · rw [hbody]
    simp [createApplicationFormData]
  · intro f
    rw [hbody]
    cases hres : data.resume <;> simp [createApplicationFormData, hres, eq_comm]
  · intro r h hok h409
    subst h
    simp [createApplication, request, handleResponse, hok, handleApiError, h409]

/-- C2 witness: concrete multipart parts for a submission with a resume. -/
theorem createApplication_c2_witness :
    BodyPart.field "description" "cover" ∈
      (createApplication ⟨"cover", some "resume.pdf"⟩ FetchOutcome.abortError
        ⟨none, none, none, none⟩).1
  ∧ BodyPart.filePart "resume" "resume.pdf" ∈
      (createApplication ⟨"cover", some "resume.pdf"⟩ FetchOutcome.abortError
        ⟨none, none, none, none⟩).1 :=
  ⟨(createApplication_c2_characterization ⟨"cover", some "resume.pdf"⟩ FetchOutcome.abortError
      ⟨none, none, none, none⟩).1,
   ((createApplication_c2_characterization ⟨"cover", some "resume.pdf"⟩ FetchOutcome.abortError
      ⟨none, none, none, none⟩).2.1 "resume.pdf").mp rfl⟩

end JobPortal
